import Mathlib

/-!
Shallow embedding of the Redux state logic of the social-feed walkthrough
repository: the posts slice (`src/features/posts/postsSlice.js`), the users
slice (`src/features/users/usersSlice.js`), and the counter slice.

JS objects become Lean structures, arrays become lists, the Immer-style
mutative reducer bodies become pure functions returning the updated state,
and a reducer body that would throw at runtime returns `Except.error`.
-/

namespace ReduxEssentials

/-- The five reaction counters a freshly prepared post carries:
`{ thumbsUp: 0, hooray: 0, heart: 0, rocket: 0, eyes: 0 }`. -/
structure Reactions where
  thumbsUp : Nat
  hooray : Nat
  heart : Nat
  rocket : Nat
  eyes : Nat
deriving Repr, DecidableEq

/-- All five counters at zero, as built by the `postAdded` prepare callback. -/
def Reactions.zero : Reactions := ⟨0, 0, 0, 0, 0⟩

/-- One element of the `posts` array of the posts slice. -/
structure Post where
  id : String
  date : String
  title : String
  content : String
  user : String
  reactions : Reactions
deriving Repr, DecidableEq

/-- The posts slice state object `{ posts, status, error }`. -/
structure PostsState where
  posts : List Post
  status : String
  error : Option String
deriving Repr, DecidableEq

/-- The slice's `initialState`: `{ posts: [], status: "idle", error: null }`. -/
def postsInitialState : PostsState :=
  { posts := [], status := "idle", error := none }

/-- A JavaScript runtime error thrown while a reducer body runs. -/
inductive JsError where
  | typeError (message : String)
deriving Repr, DecidableEq

/-- A value read off the posts slice state object by property access. -/
inductive JsProp where
  | arr (elems : List Post)
  | str (s : String)
  | strOrNull (s : Option String)
  | undefined
deriving Repr, DecidableEq

/-- Property access `state[key]` on the plain slice state object
`{ posts, status, error }`: its three own properties are data properties,
and any other key — `find` included — yields `undefined`. -/
def PostsState.getProp (state : PostsState) (key : String) : JsProp :=
  if key = "posts" then .arr state.posts
  else if key = "status" then .str state.status
  else if key = "error" then .strOrNull state.error
  else .undefined

/-- The `postAdded` prepare callback: builds the payload
`{ id: nanoid(), date: new Date().toISOString(), title, content, user,
reactions: all zero }`.  The nondeterministic `nanoid()` and the wall-clock
timestamp enter as the parameters `id` and `date`. -/
def postAddedPrepare (id date title content userId : String) : Post :=
  { id := id, date := date, title := title, content := content,
    user := userId, reactions := Reactions.zero }

/-- The `postAdded` case reducer: `state.posts.push(action.payload)`. -/
def postAdded (state : PostsState) (payload : Post) : PostsState :=
  { state with posts := state.posts ++ [payload] }

/-- Effect of mutating the post returned by
`state.posts.find((post) => post.id === id)`: the first post whose id
matches gets its `title` and `content` overwritten; every other field of
that post and every other post stay as they are. -/
def updateFirstPost (id title content : String) : List Post → List Post
  | [] => []
  | p :: ps =>
    if p.id = id then { p with title := title, content := content } :: ps
    else p :: updateFirstPost id title content ps

/-- The `postUpdated` case reducer: destructure `{ id, title, content }`
from the payload, look the post up with
`state.posts.find((post) => post.id === id)`; when no post matches, do
nothing; when one does, assign its `title` and `content` fields. -/
def postUpdated (state : PostsState) (id title content : String) : PostsState :=
  match state.posts.find? (fun post => post.id = id) with
  | none => state
  | some _ => { state with posts := updateFirstPost id title content state.posts }

/-- The `reactionAdded` case reducer as written in the source: it evaluates
`state.find((post) => post.id === postId)`, reading the property `find` off
the slice state object `{ posts, status, error }` — not off `state.posts`.
No property of that object is a function (`find` is not an own property, so
the access yields `undefined`), hence the call throws a TypeError before any
post is looked up, whatever the payload holds. -/
def reactionAdded (state : PostsState) (postId reaction : String) :
    Except JsError PostsState :=
  match state.getProp "find" with
  | .undefined => .error (.typeError "state.find is not a function")
  | _ => .error (.typeError "state.find is not a function")

/-- The `fetchPosts.fulfilled` case reducer: `state.status = "succeeded"` and
`state.posts = state.posts.concat(action.payload)`. -/
def fetchPostsFulfilledReducer (state : PostsState) (payload : List Post) :
    PostsState :=
  { state with status := "succeeded", posts := state.posts ++ payload }

/-- The `fetchPosts.rejected` case reducer: `state.status = "failed"` and
`state.error = action.error.message`. -/
def fetchPostsRejectedReducer (state : PostsState) (message : String) :
    PostsState :=
  { state with status := "failed", error := some message }

/-- Actions the posts slice reducer can receive: its three generated case
reducers, the registered thunk lifecycle cases, the lifecycle events of
`addNewPost` that have no registered case, and any foreign action type. -/
inductive PostsAction where
  | postAdded (payload : Post)
  | postUpdated (id title content : String)
  | reactionAdded (postId reaction : String)
  | fetchPostsPending
  | fetchPostsFulfilled (payload : List Post)
  | fetchPostsRejected (message : String)
  | addNewPostPending
  | addNewPostFulfilled (payload : Post)
  | addNewPostRejected (message : String)
  | unknown (actionType : String)

/-- The reducer `createSlice` generates for the posts slice: it routes each
action to its case reducer and returns the incoming state for every action
type with no registered case (`addNewPost.pending`, `addNewPost.rejected`
and foreign types among them).  A case reducer that throws surfaces as
`Except.error`. -/
def postsReducer (state : PostsState) : PostsAction → Except JsError PostsState
  | .postAdded payload => .ok (postAdded state payload)
  | .postUpdated id title content => .ok (postUpdated state id title content)
  | .reactionAdded postId reaction => reactionAdded state postId reaction
  | .fetchPostsPending => .ok { state with status := "loading" }
  | .fetchPostsFulfilled payload => .ok (fetchPostsFulfilledReducer state payload)
  | .fetchPostsRejected message => .ok (fetchPostsRejectedReducer state message)
  | .addNewPostPending => .ok state
  | .addNewPostFulfilled payload => .ok { state with posts := state.posts ++ [payload] }
  | .addNewPostRejected _ => .ok state
  | .unknown _ => .ok state

/-- Dispatch a list of actions in order, stopping at the first thrown error. -/
def runActions (state : PostsState) : List PostsAction → Except JsError PostsState
  | [] => .ok state
  | a :: rest =>
    match postsReducer state a with
    | .ok next => runActions next rest
    | .error e => .error e

/-- Modelled from the spec: the `createAsyncThunk` machinery around
`fetchPosts` is library code not among the repository's files.  Per the
spec's lifecycle, one invocation dispatches the `pending` event first
(before the network call) and then exactly one terminal event: `fulfilled`
carrying the response payload, or `rejected` carrying an error message. -/
inductive FetchOutcome where
  | success (payload : List Post)
  | failure (message : String)

/-- Modelled from the spec: the ordered list of actions one `fetchPosts`
invocation dispatches for a given outcome of the network call. -/
def fetchPostsTrace : FetchOutcome → List PostsAction
  | .success payload => [.fetchPostsPending, .fetchPostsFulfilled payload]
  | .failure message => [.fetchPostsPending, .fetchPostsRejected message]

/-- One element of the users slice state array. -/
structure User where
  id : String
  name : String
deriving Repr, DecidableEq

/-- Actions the users slice reducer can receive: the one registered case
(`fetchUsers.fulfilled`), the unregistered lifecycle events of `fetchUsers`,
and any foreign action type. -/
inductive UsersAction where
  | fetchUsersFulfilled (payload : List User)
  | fetchUsersPending
  | fetchUsersRejected (message : String)
  | unknown (actionType : String)

/-- The reducer `createSlice` generates for the users slice
(`usersSlice.js`): `reducers` is empty, and the only registered extra case
is `fetchUsers.fulfilled`, whose body is `return action.payload` — the new
sub-state is exactly the response payload.  Every other action leaves the
incoming sub-state as it is. -/
def usersReducer (state : List User) : UsersAction → List User
  | .fetchUsersFulfilled payload => payload
  | .fetchUsersPending => state
  | .fetchUsersRejected _ => state
  | .unknown _ => state

/-- The counter slice state object `{ value }`. -/
structure CounterState where
  value : Int
deriving Repr, DecidableEq

/-- Modelled from the spec: `counterSlice.js` itself is not among the
repository's source files — only its test driver and the walkthrough that
quotes it are.  Per the spec, the counter slice registers `increment`,
`decrement` and `incrementByAmount` (action types namespaced as
`"counter/<verb>"`), and the generated reducer returns the incoming
sub-state itself for every other action type. -/
def counterReducer (state : CounterState) (actionType : String)
    (payload : Int) : CounterState :=
  if actionType = "counter/increment" then { value := state.value + 1 }
  else if actionType = "counter/decrement" then { value := state.value - 1 }
  else if actionType = "counter/incrementByAmount" then
    { value := state.value + payload }
  else state

/-! Helper lemmas about the lookup-and-mutate pattern of `postUpdated`. -/

theorem find_first_matching (id : String) (pre : List Post) (p : Post)
    (rest : List Post) (hp : p.id = id) (hpre : ∀ q ∈ pre, q.id ≠ id) :
    (pre ++ p :: rest).find? (fun post => post.id = id) = some p := by
  induction pre with
  | nil => simp [hp]
  | cons q qs ih =>
    have hq : q.id ≠ id := hpre q (by simp)
    rw [List.cons_append, List.find?_cons_of_neg _ (by simp [hq])]
    exact ih fun r hr => hpre r (by simp [hr])

theorem updateFirstPost_append (id title content : String) (pre : List Post)
    (p : Post) (rest : List Post) (hp : p.id = id)
    (hpre : ∀ q ∈ pre, q.id ≠ id) :
    updateFirstPost id title content (pre ++ p :: rest)
      = pre ++ ({ p with title := title, content := content } : Post) :: rest := by
  induction pre with
  | nil => simp [updateFirstPost, hp]
  | cons q qs ih =>
    have hq : q.id ≠ id := hpre q (by simp)
    simp only [List.cons_append, updateFirstPost, if_neg hq, List.cons.injEq,
      true_and]
    exact ih fun r hr => hpre r (by simp [hr])

/-- Claim C1: the spec says a reaction-increment event whose `postId` matches
no existing post must leave the posts collection unchanged, a benign no-op
with no error raised.  In the source, `reactionAdded` evaluates
`state.find(...)` on the slice state object `{ posts, status, error }`
instead of on `state.posts`, so it throws a TypeError instead of returning
the state: evaluation at the failing input (empty collection, payload
`{ postId: "999", reaction: "heart" }`). -/
theorem reactionAdded_missing_post_throws :
    reactionAdded postsInitialState "999" "heart"
      = .error (.typeError "state.find is not a function") := rfl

/-- Claim C2: the spec says a reaction-increment for kind "heart" on an
existing post whose counter is 0 leaves it at 1 (and at 2 after a second
event).  In the source, `reactionAdded` evaluates `state.find(...)` on the
slice state object instead of on `state.posts`, so even with the post
present it throws a TypeError and never increments: evaluation at the
failing input. -/
theorem reactionAdded_existing_post_throws :
    reactionAdded
      ⟨[⟨"1", "2020-01-01", "First", "Hello", "u1", Reactions.zero⟩],
        "idle", none⟩ "1" "heart"
      = .error (.typeError "state.find is not a function") := rfl

/-- Claim C3: starting from the empty collection, `postAdded("T1","C1","u1")`
(the prepare step supplying the generated id and timestamp) yields exactly
one post, carrying title "T1", content "C1", author "u1" and all-zero
reaction counters; its id is the freshly generated one, which cannot collide
with or reorder existing ids since there are none, and the post is appended. -/
theorem postAdded_from_empty (id date : String) :
    (postAdded postsInitialState (postAddedPrepare id date "T1" "C1" "u1")).posts
        = [postAddedPrepare id date "T1" "C1" "u1"]
      ∧ (postAddedPrepare id date "T1" "C1" "u1").title = "T1"
      ∧ (postAddedPrepare id date "T1" "C1" "u1").content = "C1"
      ∧ (postAddedPrepare id date "T1" "C1" "u1").user = "u1"
      ∧ (postAddedPrepare id date "T1" "C1" "u1").reactions = Reactions.zero
      ∧ (postAddedPrepare id date "T1" "C1" "u1").id = id
      ∧ id ∉ postsInitialState.posts.map Post.id := by
  refine ⟨rfl, rfl, rfl, rfl, rfl, rfl, ?_⟩
  simp [postsInitialState]

/-- Claim C4: when no post carries the payload's id, `postUpdated` returns
the state unchanged (no error); when one does, exactly the `title` and
`content` fields of the first such post are overwritten, while its id, user,
date and reactions, every other post, and the slice's status and error
fields stay as they were. -/
theorem postUpdated_spec (s : PostsState) (id title content : String) :
    (s.posts.find? (fun post => post.id = id) = none →
        postUpdated s id title content = s)
      ∧ (∀ pre p rest, s.posts = pre ++ p :: rest → p.id = id →
          (∀ q ∈ pre, q.id ≠ id) →
          postUpdated s id title content
            = { s with posts :=
                pre ++ ({ p with title := title, content := content } : Post)
                  :: rest }) := by
  constructor
  · intro h
    unfold postUpdated
    rw [h]
  · intro pre p rest hs hp hpre
    unfold postUpdated
    rw [hs, find_first_matching id pre p rest hp hpre,
      updateFirstPost_append id title content pre p rest hp hpre]

/-- Concrete run of `postUpdated_spec`: a one-post state, updated at its id,
ends with that post's title and content replaced and all else intact. -/
theorem postUpdated_spec_witness :
    postUpdated
        ⟨[⟨"1", "2020-01-01", "First", "Hello", "u2", Reactions.zero⟩],
          "idle", none⟩ "1" "Edited" "New body"
      = ⟨[⟨"1", "2020-01-01", "Edited", "New body", "u2", Reactions.zero⟩],
          "idle", none⟩ := by
  have h := (postUpdated_spec
      ⟨[⟨"1", "2020-01-01", "First", "Hello", "u2", Reactions.zero⟩],
        "idle", none⟩ "1" "Edited" "New body").2
      [] ⟨"1", "2020-01-01", "First", "Hello", "u2", Reactions.zero⟩
      [] rfl rfl (by simp)
  simpa using h

/-- Claim C5: one `fetchPosts` invocation dispatches the pending event first
and then exactly one terminal event; from status "idle", pending moves the
status to "loading" touching nothing else, a fulfilled outcome ends at
status "succeeded" with the collection extended by the response items, and a
rejected outcome ends at status "failed" with the error message recorded and
the collection unchanged. -/
theorem fetchPosts_lifecycle (s : PostsState) (outcome : FetchOutcome)
    (hidle : s.status = "idle") :
    s.status = "idle"
      ∧ (fetchPostsTrace outcome).head? = some .fetchPostsPending
      ∧ (fetchPostsTrace outcome).length = 2
      ∧ postsReducer s .fetchPostsPending = .ok { s with status := "loading" }
      ∧ runActions s (fetchPostsTrace outcome)
          = .ok (match outcome with
            | .success payload =>
                { s with status := "succeeded", posts := s.posts ++ payload }
            | .failure message =>
                { s with status := "failed", error := some message }) := by
  refine ⟨hidle, ?_, ?_, rfl, ?_⟩ <;>
    cases outcome <;>
      simp [fetchPostsTrace, runActions, postsReducer,
        fetchPostsFulfilledReducer, fetchPostsRejectedReducer]

/-- Concrete run of `fetchPosts_lifecycle`: from the initial state, a
rejected fetch ends at status "failed" with the message recorded and the
collection still empty. -/
theorem fetchPosts_lifecycle_witness :
    runActions postsInitialState
        (fetchPostsTrace (.failure "Request failed with status code 500"))
      = .ok ⟨[], "failed", some "Request failed with status code 500"⟩ := by
  have h := (fetchPosts_lifecycle postsInitialState
      (.failure "Request failed with status code 500") rfl).2.2.2.2
  simpa [postsInitialState] using h

/-- Claim C7: for every counter sub-state and every action type the counter
slice does not register, the counter reducer returns the incoming sub-state
itself — the value-level rendering of the reference-equality guarantee. -/
theorem counterReducer_unknown_identity (s : CounterState)
    (actionType : String) (payload : Int)
    (h1 : actionType ≠ "counter/increment")
    (h2 : actionType ≠ "counter/decrement")
    (h3 : actionType ≠ "counter/incrementByAmount") :
    counterReducer s actionType payload = s := by
  simp [counterReducer, h1, h2, h3]

/-- Concrete run of `counterReducer_unknown_identity` at the test driver's
action `{ type: "unknown" }`. -/
theorem counterReducer_unknown_identity_witness :
    counterReducer { value := 5 } "unknown" 3 = { value := 5 } :=
  counterReducer_unknown_identity { value := 5 } "unknown" 3
    (by decide) (by decide) (by decide)

/-- Claim C8: `fetchUsers.fulfilled` replaces the users sub-state wholesale
with the response payload, and no other action of the feature modifies the
users section. -/
theorem usersSlice_wholesale_replace (s payload : List User)
    (message actionType : String) :
    usersReducer s (.fetchUsersFulfilled payload) = payload
      ∧ usersReducer s .fetchUsersPending = s
      ∧ usersReducer s (.fetchUsersRejected message) = s
      ∧ usersReducer s (.unknown actionType) = s :=
  ⟨rfl, rfl, rfl, rfl⟩

/-- Claim C9: `fetchPosts.fulfilled` concatenates the full response payload
onto the existing posts with no de-duplication: when a payload item's id
already occurs in the collection, the result holds at least two posts with
that id. -/
theorem fetchPosts_fulfilled_no_dedup (s : PostsState) (payload : List Post) :
    (fetchPostsFulfilledReducer s payload).posts = s.posts ++ payload
      ∧ ∀ p ∈ payload, p.id ∈ s.posts.map Post.id →
          2 ≤ ((fetchPostsFulfilledReducer s payload).posts.filter
              (fun q => q.id = p.id)).length := by
  refine ⟨rfl, ?_⟩
  intro p hp hmem
  obtain ⟨q, hq, hqid⟩ := List.mem_map.1 hmem
  have h1 : q ∈ s.posts.filter (fun r => r.id = p.id) :=
    List.mem_filter.2 ⟨hq, by simp [hqid]⟩
  have h2 : p ∈ payload.filter (fun r => r.id = p.id) :=
    List.mem_filter.2 ⟨hp, by simp⟩
  have l1 : 0 < (s.posts.filter (fun r => r.id = p.id)).length :=
    List.length_pos.2 (List.ne_nil_of_mem h1)
  have l2 : 0 < (payload.filter (fun r => r.id = p.id)).length :=
    List.length_pos.2 (List.ne_nil_of_mem h2)
  have hposts : (fetchPostsFulfilledReducer s payload).posts
      = s.posts ++ payload := rfl
  rw [hposts, List.filter_append, List.length_append]
  omega

/-- Concrete run of `fetchPosts_fulfilled_no_dedup`: fetching a payload that
repeats an existing id leaves two posts with that id in the collection. -/
theorem fetchPosts_fulfilled_no_dedup_witness :
    2 ≤ ((fetchPostsFulfilledReducer
        ⟨[⟨"1", "d1", "a", "b", "u1", Reactions.zero⟩], "idle", none⟩
        [⟨"1", "d2", "c", "e", "u2", Reactions.zero⟩]).posts.filter
        (fun q => q.id = "1")).length := by
  have h := (fetchPosts_fulfilled_no_dedup
      ⟨[⟨"1", "d1", "a", "b", "u1", Reactions.zero⟩], "idle", none⟩
      [⟨"1", "d2", "c", "e", "u2", Reactions.zero⟩]).2
      ⟨"1", "d2", "c", "e", "u2", Reactions.zero⟩
      (by simp) (by simp)
  simpa using h

/-- Claim C10: only the fulfilled event of `addNewPost` has a registered
case — it appends the server-returned post while leaving the status and
error fields as they were — and `addNewPost.pending` and
`addNewPost.rejected` leave the whole posts section unchanged. -/
theorem addNewPost_fulfilled_only (s : PostsState) (p : Post)
    (message : String) :
    postsReducer s (.addNewPostFulfilled p)
        = .ok { s with posts := s.posts ++ [p] }
      ∧ postsReducer s .addNewPostPending = .ok s
      ∧ postsReducer s (.addNewPostRejected message) = .ok s :=
  ⟨rfl, rfl, rfl⟩

end ReduxEssentials
